import Mathlib

/-!
Verification of the render orchestration and upload protocol of
`remotion-cloudflare-containers`.

Shallow embedding of:
  * the Cloudflare Worker gateway `fetch` handler (src/unnamed/part_002,
    default export): routing, request enhancement with `renderId` and
    `r2Config`, the two upload-completion paths (manifest vs. stream),
    error forwarding and the catch-all handler;
  * the container render server `POST /render` handler (src/server.ts),
    including `getS3Client` and the conditional self-upload logic.

HTTP bodies are modelled as `String`s (a byte stream; its `length` is the
byte count).  JavaScript `undefined`/absent string values and the empty
string are both falsy in every check the source performs, so both are
modelled as `""` where the source only tests truthiness.  `Response.json()`
parsing is modelled by a `jsonView : Except String Manifest` field carried
on the response (the gateway reads only `key` and `size` from the parsed
object); a parse failure (`.error msg`) models the thrown exception caught
by the gateway's catch-all.
-/

/-- JS `String.prototype.startsWith` on char lists: `seqStarts l p` holds
when `p` is a prefix of `l`. -/
def seqStarts : List Char → List Char → Bool
  | _, [] => true
  | [], _ :: _ => false
  | c :: l, d :: p => c = d && seqStarts l p

/-- JS `String.prototype.includes` on char lists: `seqHas l p` holds when
`p` occurs contiguously inside `l`. -/
def seqHas : List Char → List Char → Bool
  | [], p => p.isEmpty
  | c :: l, p => seqStarts (c :: l) p || seqHas l p

/-- JS `s.includes(pat)` : substring containment on strings. -/
def strIncludes (s pat : String) : Bool :=
  seqHas s.data pat.data

/-- The gateway Worker's environment bindings (interface `Env` in
src/unnamed/part_002).  A binding left unset is modelled as `""`. -/
structure Env where
  r2BucketName : String
  accountId : String
  accessKeyId : String
  secretAccessKey : String
deriving DecidableEq, Repr

/-- The `r2Config` object the gateway injects into the forwarded job
(interface `R2Config` in src/server.ts). -/
structure R2Config where
  accountId : String
  accessKeyId : String
  secretAccessKey : String
  bucketName : String
deriving DecidableEq, Repr

/-- The caller's parsed JSON body.  `compositionId` may be absent
(`none`) or present (possibly empty).  `inputProps` and any extra fields
are opaque to the orchestration logic and carried through the spread
`{...originalBody, ...}`. -/
structure CallerBody where
  compositionId : Option String
  inputProps : Option (List (String × String))
  extra : List (String × String)
deriving DecidableEq, Repr

/-- An inbound HTTP request to the gateway.  `jsonBody` is the result of
`await request.json()`: `.error msg` models the exception thrown on an
absent or malformed body (caught by the gateway's catch-all). -/
structure InboundRequest where
  method : String
  path : String
  jsonBody : Except String CallerBody
deriving Repr

/-- The `enhancedBody` forwarded to the container: the caller's fields
plus the gateway-injected `renderId` and `r2Config` (which overwrite any
caller-supplied fields of the same name, per JS spread semantics). -/
structure ForwardedJob where
  compositionId : Option String
  inputProps : Option (List (String × String))
  extra : List (String × String)
  renderId : String
  r2Config : Option R2Config
deriving DecidableEq, Repr

/-- The part of a parsed JSON manifest the gateway reads: `result.key`
and `result.size`. -/
structure Manifest where
  key : String
  size : Nat
deriving DecidableEq, Repr

/-- An HTTP response from the container as the gateway observes it.
`contentType` is `headers.get("Content-Type")` (`none` when absent);
`contentLength` is the declared `Content-Length`, which the gateway never
reads; `body` is the raw byte stream (`none` models a null body);
`jsonView` is what `await response.json()` yields. -/
structure ContainerResponse where
  status : Nat
  contentType : Option String
  contentLength : Option Nat
  body : Option String
  jsonView : Except String Manifest
deriving Repr

/-- An object record returned by `R2Bucket.put`: the key and the size the
storage backend reports for the stored object. -/
structure R2Object where
  key : String
  size : Nat
deriving DecidableEq, Repr

/-- An object as durably stored in the R2 bucket. -/
structure StoredEntry where
  key : String
  value : String
  contentType : String
deriving DecidableEq, Repr

/-- Model of `env.R2_BUCKET.put(key, body, { httpMetadata: { contentType } })`:
the put consumes the whole stream and the returned object's `size` is the
number of bytes actually written, independent of any declared length.
`fail = some msg` models a storage-backend write error (a rejected
promise, caught by the gateway's catch-all). -/
def r2Put (fail : Option String) (key value contentType : String) :
    Except String (R2Object × StoredEntry) :=
  match fail with
  | some msg => .error msg
  | none => .ok (⟨key, value.length⟩, ⟨key, value, contentType⟩)

/-- The body of a gateway response to the caller, one constructor per
`Response` the handler in src/unnamed/part_002 can build:
`text` for the liveness body and for a forwarded container error body;
`renderResult` for the success JSON `{renderId, bucketName, key, size, url}`;
`emptyError` for `{error: "Empty response from container"}`;
`renderFailed` for the catch-all `{error: "Render failed", message, renderId}`. -/
inductive GBody where
  | text (s : String)
  | renderResult (renderId bucketName key : String) (size : Nat) (url : String)
  | emptyError
  | renderFailed (message : String) (renderId : String)
deriving DecidableEq, Repr

/-- A gateway HTTP response: status code and body. -/
structure GatewayResponse where
  status : Nat
  body : GBody
deriving DecidableEq, Repr

/-- One full gateway invocation outcome: the response to the caller plus
the observable effects — the job forwarded to the container (if any), the
R2 writes performed, and the number of artifact bytes the gateway itself
relayed through `response.body`. -/
structure GatewayOutcome where
  response : GatewayResponse
  forwardedJob : Option ForwardedJob
  stored : List StoredEntry
  artifactBytesRelayed : Nat
deriving Repr

/-- Public URL derivation (lines 82 and 106 of src/unnamed/part_002). -/
def publicUrl (key : String) : String :=
  "https://renders.tremendous.dev/" ++ key

/-- The static informational body returned for every non-`/render` path. -/
def livenessText : String :=
  "Remotion Worker - use POST /render to render videos"

/-- The `enhancedBody` construction of src/unnamed/part_002 (lines 44–54):
the caller's fields spread first, then the gateway-injected `renderId`
and `r2Config` built unconditionally from the environment bindings. -/
def enhance (env : Env) (renderId : String) (originalBody : CallerBody) :
    ForwardedJob :=
  { compositionId := originalBody.compositionId
    inputProps := originalBody.inputProps
    extra := originalBody.extra
    renderId := renderId
    r2Config := some ⟨env.accountId, env.accessKeyId,
                      env.secretAccessKey, env.r2BucketName⟩ }

/-- Shallow embedding of the gateway `fetch` handler (default export of
src/unnamed/part_002).  `renderId` stands for the `crypto.randomUUID()`
result; `container` for `container.fetch` (an `.error` models a rejected
fetch, caught by the catch-all); `r2Fail` selects whether the
`R2_BUCKET.put` call succeeds.  The source's local consts `enhancedBody`,
`contentType`, `key` and `errorText` are hoisted or inlined. -/
def gatewayFetch (env : Env) (renderId : String)
    (container : ForwardedJob → Except String ContainerResponse)
    (r2Fail : Option String) (req : InboundRequest) : GatewayOutcome :=
  if req.path = "/render" then
    match req.jsonBody with
    | .error msg =>
        -- `await request.json()` threw; caught by the catch-all handler
        { response := ⟨500, .renderFailed msg renderId⟩
          forwardedJob := none, stored := [], artifactBytesRelayed := 0 }
    | .ok originalBody =>
        match container (enhance env renderId originalBody) with
        | .error msg =>
            { response := ⟨500, .renderFailed msg renderId⟩
              forwardedJob := some (enhance env renderId originalBody), stored := []
              artifactBytesRelayed := 0 }
        | .ok resp =>
          if resp.status = 200 then
            if strIncludes (resp.contentType.getD "") "application/json" then
              match resp.jsonView with
              | .error msg =>
                  -- `await response.json()` threw; caught by the catch-all
                  { response := ⟨500, .renderFailed msg renderId⟩
                    forwardedJob := some (enhance env renderId originalBody), stored := []
                    artifactBytesRelayed := 0 }
              | .ok result =>
                  { response := ⟨200, .renderResult renderId env.r2BucketName
                                  result.key result.size (publicUrl result.key)⟩
                    forwardedJob := some (enhance env renderId originalBody), stored := []
                    artifactBytesRelayed := 0 }
            else
              match resp.body with
              | none =>
                  { response := ⟨500, .emptyError⟩
                    forwardedJob := some (enhance env renderId originalBody), stored := []
                    artifactBytesRelayed := 0 }
              | some b =>
                  match r2Put r2Fail (renderId ++ ".mp4") b "video/mp4" with
                  | .error msg =>
                      { response := ⟨500, .renderFailed msg renderId⟩
                        forwardedJob := some (enhance env renderId originalBody), stored := []
                        artifactBytesRelayed := b.length }
                  | .ok (r2Object, entry) =>
                      { response := ⟨200, .renderResult renderId env.r2BucketName
                                      (renderId ++ ".mp4") r2Object.size
                                      (publicUrl (renderId ++ ".mp4"))⟩
                        forwardedJob := some (enhance env renderId originalBody)
                        stored := [entry]
                        artifactBytesRelayed := b.length }
          else
            { response := ⟨resp.status, .text (resp.body.getD "")⟩
              forwardedJob := some (enhance env renderId originalBody), stored := []
              artifactBytesRelayed := 0 }
  else
    { response := ⟨200, .text livenessText⟩
      forwardedJob := none, stored := [], artifactBytesRelayed := 0 }

/-! ## The container render server (src/server.ts) -/

/-- The S3 client the container builds for direct R2 upload. -/
structure S3Client where
  endpoint : String
  accessKeyId : String
  secretAccessKey : String
deriving DecidableEq, Repr

/-- Shallow embedding of `getS3Client` (src/server.ts lines 74–86):
returns `none` exactly when the config is absent or any of `accountId`,
`accessKeyId`, `secretAccessKey` is falsy; `bucketName` is not examined. -/
def getS3Client (config : Option R2Config) : Option S3Client :=
  match config with
  | none => none
  | some c =>
    if c.accountId = "" || c.accessKeyId = "" || c.secretAccessKey = "" then
      none
    else
      some ⟨"https://" ++ c.accountId ++ ".r2.cloudflarestorage.com",
            c.accessKeyId, c.secretAccessKey⟩

/-- A `PutObjectCommand` the container sends through the S3 client. -/
structure S3PutCall where
  bucket : String
  key : String
  body : String
  contentType : String
deriving DecidableEq, Repr

/-- Outcome of the external renderer (`selectComposition` + `renderMedia`
followed by `fs.readFile`): either the rendered video bytes, or a thrown
error whose message/stack lands in the 500 body. -/
inductive RenderOutcome where
  | ok (video : String)
  | err (msg : String)
deriving DecidableEq, Repr

/-- Serialized body of the 400 validation response
(`res.status(400).json({ message: "..." })` in src/server.ts). -/
def validationMsgBody : String :=
  "\x7b\"message\":\"`compositionId` is required.\"\x7d"

/-- Serialized body of the 500 render-error response of src/server.ts
(stack-trace escaping elided; every proved property treats this body as
opaque text). -/
def workerErrBody (stack : String) : String :=
  "\x7b\"message\":\"Error rendering video.\",\"error\":\"" ++ stack ++ "\"\x7d"

/-- Serialized body of the manifest response
(`res.status(200).json({ success, renderId, key, size, uploadedToR2 })`). -/
def manifestBody (renderId key : String) (size : Nat) : String :=
  "\x7b\"success\":true,\"renderId\":\"" ++ renderId ++ "\",\"key\":\"" ++ key
    ++ "\",\"size\":" ++ toString size ++ ",\"uploadedToR2\":true\x7d"

/-- JS truthiness test `!compositionId` on the destructured field. -/
def missingCid : Option String → Bool
  | none => true
  | some s => s = ""

/-- The container's result: its HTTP response plus the S3 put calls it
performed. -/
structure WorkerResult where
  response : ContainerResponse
  s3Puts : List S3PutCall
deriving Repr

/-- The 400 validation response of src/server.ts. -/
def validationResp : ContainerResponse :=
  { status := 400, contentType := some "application/json; charset=utf-8"
    contentLength := some validationMsgBody.length
    body := some validationMsgBody
    jsonView := .error "no key/size manifest" }

/-- The 500 render-error response of src/server.ts. -/
def workerErrResp (stack : String) : ContainerResponse :=
  { status := 500, contentType := some "application/json; charset=utf-8"
    contentLength := some (workerErrBody stack).length
    body := some (workerErrBody stack)
    jsonView := .error "no key/size manifest" }

/-- The 200 manifest response of src/server.ts (self-upload path); its
`jsonView` exposes the `key`/`size` fields the gateway reads. -/
def manifestResp (renderId key : String) (size : Nat) : ContainerResponse :=
  { status := 200, contentType := some "application/json; charset=utf-8"
    contentLength := some (manifestBody renderId key size).length
    body := some (manifestBody renderId key size)
    jsonView := .ok ⟨key, size⟩ }

/-- The 200 raw-video fallback response of src/server.ts
(`res.setHeader("Content-Type", "video/mp4"); res.send(fileBuffer)`). -/
def streamResp (video : String) : ContainerResponse :=
  { status := 200, contentType := some "video/mp4"
    contentLength := some video.length
    body := some video
    jsonView := .error "mp4 bytes are not JSON" }

/-- Literal translation of the guard `if (s3Client && renderId && r2Config)`
in src/server.ts (line 136). -/
def takesSelfUpload (job : ForwardedJob) : Bool :=
  (getS3Client job.r2Config).isSome && job.renderId != "" && job.r2Config.isSome

/-- Shallow embedding of the container `POST /render` handler
(src/server.ts lines 88–178).  `render` stands for the external renderer
outcome.  The guard `s3Client && renderId && r2Config` is realised by
matching `getS3Client job.r2Config` and `job.r2Config` together (a
non-null client already forces a present config) and testing `renderId`
truthiness. -/
def workerHandle (render : RenderOutcome) (job : ForwardedJob) : WorkerResult :=
  if missingCid job.compositionId then
    { response := validationResp, s3Puts := [] }
  else
    match render with
    | .err stack => { response := workerErrResp stack, s3Puts := [] }
    | .ok video =>
      -- `fileSize` is `video.length`; `key` is `job.renderId ++ ".mp4"`
      match getS3Client job.r2Config, job.r2Config with
      | some _s3, some cfg =>
        if job.renderId != "" then
          { response := manifestResp job.renderId (job.renderId ++ ".mp4") video.length
            s3Puts := [⟨cfg.bucketName, job.renderId ++ ".mp4", video, "video/mp4"⟩] }
        else
          { response := streamResp video, s3Puts := [] }
      | _, _ =>
          { response := streamResp video, s3Puts := [] }

/-- The composed system: the gateway in front of the real container
handler of src/server.ts. -/
def systemFetch (env : Env) (renderId : String) (render : RenderOutcome)
    (r2Fail : Option String) (req : InboundRequest) : GatewayOutcome :=
  gatewayFetch env renderId
    (fun job => .ok (workerHandle render job).response) r2Fail req

/-! ## Serialized gateway response bodies

For the correlation-identifier claims, presence of the identifier in a
payload is judged on the payload's wire text: the JSON serialization
of each `Response` the gateway builds. -/

/-- Wire text of each gateway response body, following the JSON shapes
built by `Response.json` in src/unnamed/part_002 (and the raw text for
forwarded container bodies and the liveness body). -/
def gbodyText : GBody → String
  | .text s => s
  | .renderResult rid bucket key size url =>
      "\x7b\"renderId\":\"" ++ rid ++ ("\",\"bucketName\":\"" ++ bucket
        ++ "\",\"key\":\"" ++ key ++ "\",\"size\":" ++ toString size
        ++ ",\"url\":\"" ++ url ++ "\"\x7d")
  | .emptyError => "\x7b\"error\":\"Empty response from container\"\x7d"
  | .renderFailed msg rid =>
      "\x7b\"error\":\"Render failed\",\"message\":\"" ++ msg
        ++ "\",\"renderId\":\"" ++ (rid ++ "\"\x7d")

/-- A payload mentions a correlation identifier when the identifier
occurs in the payload's wire text. -/
def bodyMentions (rid : String) (b : GBody) : Bool :=
  strIncludes (gbodyText b) rid

/-! ## Substring helper lemmas -/

lemma seqStarts_self_append (p rest : List Char) :
    seqStarts (p ++ rest) p = true := by
  induction p with
  | nil => cases rest <;> rfl
  | cons c p ih => simp [seqStarts, ih]

lemma seqHas_of_starts (l p : List Char) (h : seqStarts l p = true) :
    seqHas l p = true := by
  cases l with
  | nil =>
    cases p with
    | nil => rfl
    | cons d p => simp [seqStarts] at h
  | cons c l => simp [seqHas, h]

lemma seqHas_append_left (a l p : List Char) (h : seqHas l p = true) :
    seqHas (a ++ l) p = true := by
  induction a with
  | nil => simpa using h
  | cons c a ih => simp [seqHas, ih]

lemma seqHas_mid (pre mid post : List Char) :
    seqHas (pre ++ (mid ++ post)) mid = true :=
  seqHas_append_left pre _ _
    (seqHas_of_starts _ _ (seqStarts_self_append mid post))

/-- A string built as `p ++ (mid ++ q)` contains `mid` as a substring. -/
lemma strIncludes_mid (p mid q : String) :
    strIncludes (p ++ (mid ++ q)) mid = true := by
  unfold strIncludes
  rw [String.data_append, String.data_append]
  exact seqHas_mid p.data mid.data q.data

/-- Every success payload mentions the correlation identifier it was
built with. -/
lemma mentions_renderResult (rid bucket key url : String) (size : Nat) :
    bodyMentions rid (.renderResult rid bucket key size url) = true := by
  simp only [bodyMentions, gbodyText]
  rw [String.append_assoc]
  exact strIncludes_mid _ rid _

/-- Every catch-all failure payload mentions the correlation identifier
it was built with. -/
lemma mentions_renderFailed (rid msg : String) :
    bodyMentions rid (.renderFailed msg rid) = true := by
  simp only [bodyMentions, gbodyText]
  exact strIncludes_mid _ rid _

/-! ## Concrete fixtures (used by witnesses and counterexamples) -/

/-- A gateway environment with all bindings set. -/
def envEx : Env := ⟨"remotion-renders", "acct1", "AK123", "SK456"⟩

/-- A gateway environment whose credential bindings are unset. -/
def envEmpty : Env := ⟨"remotion-renders", "", "", ""⟩

/-- A well-formed caller body. -/
def bodyHello : CallerBody := ⟨some "HelloWorld", some [("titleText", "Hi")], []⟩

/-- A caller body with no `compositionId`. -/
def bodyNoCid : CallerBody := ⟨none, none, []⟩

/-- A valid `POST /render` request. -/
def reqHello : InboundRequest := ⟨"POST", "/render", .ok bodyHello⟩

/-- A `POST /render` request whose body lacks `compositionId`. -/
def reqNoCid : InboundRequest := ⟨"POST", "/render", .ok bodyNoCid⟩

/-- A bodiless `GET /render`: `request.json()` throws. -/
def reqBadJson : InboundRequest :=
  ⟨"GET", "/render", .error "Unexpected end of JSON input"⟩

/-- A container response declaring `video/webm` with a 4-byte body. -/
def webmResp : ContainerResponse :=
  ⟨200, some "video/webm", some 4, some "abcd", .error "mp4 bytes are not JSON"⟩

/-- A 200 streaming response with a null body. -/
def nullBodyResp : ContainerResponse :=
  ⟨200, some "video/mp4", none, none, .error "no body"⟩

/-- A non-200 container response. -/
def teapotResp : ContainerResponse :=
  ⟨418, some "text/plain", none, some "oops", .error "not json"⟩

/-- A 200 manifest response fixture as the gateway sees it. -/
def manifestRespEx : ContainerResponse :=
  ⟨200, some "application/json", some 40, some "ignored", .ok ⟨"abc.mp4", 2048⟩⟩

/-! ## Claims -/

/-- C2: on the manifest path (worker status 200, Content-Type declaring
JSON), the gateway builds the RenderResult directly from the manifest's
`key` and `size`, performs no storage write, and relays zero artifact
bytes. -/
theorem c2_manifest_path_no_artifact_io
    (env : Env) (rid : String) (req : InboundRequest) (b : CallerBody)
    (resp : ContainerResponse) (m : Manifest) (r2Fail : Option String)
    (hp : req.path = "/render") (hb : req.jsonBody = .ok b)
    (hs : resp.status = 200)
    (hct : strIncludes (resp.contentType.getD "") "application/json" = true)
    (hm : resp.jsonView = .ok m) :
    (gatewayFetch env rid (fun _ => .ok resp) r2Fail req).response
        = ⟨200, .renderResult rid env.r2BucketName m.key m.size (publicUrl m.key)⟩
    ∧ (gatewayFetch env rid (fun _ => .ok resp) r2Fail req).stored = []
    ∧ (gatewayFetch env rid (fun _ => .ok resp) r2Fail req).artifactBytesRelayed = 0 := by
  simp [gatewayFetch, hp, hb, hs, hct, hm]

/-- Witness for C2 at a concrete manifest response. -/
theorem c2_witness :
    (gatewayFetch envEx "r1" (fun _ => .ok manifestRespEx) none reqHello).response
        = ⟨200, .renderResult "r1" envEx.r2BucketName "abc.mp4" 2048 (publicUrl "abc.mp4")⟩
    ∧ (gatewayFetch envEx "r1" (fun _ => .ok manifestRespEx) none reqHello).stored = []
    ∧ (gatewayFetch envEx "r1" (fun _ => .ok manifestRespEx) none reqHello).artifactBytesRelayed = 0 :=
  c2_manifest_path_no_artifact_io envEx "r1" reqHello bodyHello manifestRespEx
    ⟨"abc.mp4", 2048⟩ none rfl rfl rfl (by decide) rfl

/-- C7 counterexample: a worker fault status is forwarded as-is, so a 418
from the worker reaches the caller as 418 with the verbatim body — not as
a 500 as the claim states. -/
theorem c7_counterexample :
    (gatewayFetch envEx "r1" (fun _ => .ok teapotResp) none reqHello).response.status = 418
    ∧ (gatewayFetch envEx "r1" (fun _ => .ok teapotResp) none reqHello).response.status ≠ 500
    ∧ (gatewayFetch envEx "r1" (fun _ => .ok teapotResp) none reqHello).response.body
        = .text "oops" := by
  refine ⟨by decide, by decide, by decide⟩

/-- C7 amended: for every non-200 worker response, the gateway forwards
the body verbatim together with the worker's own status (so the caller
sees 500 exactly when the worker answered 500); no storage write occurs. -/
theorem c7_amended_fault_forwarded_verbatim
    (env : Env) (rid : String) (req : InboundRequest) (b : CallerBody)
    (resp : ContainerResponse) (r2Fail : Option String)
    (hp : req.path = "/render") (hb : req.jsonBody = .ok b)
    (hs : resp.status ≠ 200) :
    (gatewayFetch env rid (fun _ => .ok resp) r2Fail req).response
        = ⟨resp.status, .text (resp.body.getD "")⟩
    ∧ (gatewayFetch env rid (fun _ => .ok resp) r2Fail req).stored = [] := by
  simp [gatewayFetch, hp, hb, hs]

/-- Witness for the amended C7 at a concrete 418 response. -/
theorem c7_amended_witness :
    (gatewayFetch envEx "r1" (fun _ => .ok teapotResp) none reqHello).response
        = ⟨teapotResp.status, .text (teapotResp.body.getD "")⟩
    ∧ (gatewayFetch envEx "r1" (fun _ => .ok teapotResp) none reqHello).stored = [] :=
  c7_amended_fault_forwarded_verbatim envEx "r1" reqHello bodyHello teapotResp none
    rfl rfl (by decide)

/-- C8: on the streaming path, a null worker body yields the
empty-artifact failure: a 500 with the fixed error payload, no storage
write, and no RenderResult for that correlation identifier. -/
theorem c8_empty_artifact
    (env : Env) (rid : String) (req : InboundRequest) (b : CallerBody)
    (resp : ContainerResponse) (r2Fail : Option String)
    (hp : req.path = "/render") (hb : req.jsonBody = .ok b)
    (hs : resp.status = 200)
    (hct : strIncludes (resp.contentType.getD "") "application/json" = false)
    (hbody : resp.body = none) :
    (gatewayFetch env rid (fun _ => .ok resp) r2Fail req).response = ⟨500, .emptyError⟩
    ∧ (gatewayFetch env rid (fun _ => .ok resp) r2Fail req).stored = [] := by
  simp [gatewayFetch, hp, hb, hs, hct, hbody]

/-- Witness for C8 at a concrete null-body response. -/
theorem c8_witness :
    (gatewayFetch envEx "r1" (fun _ => .ok nullBodyResp) none reqHello).response
        = ⟨500, .emptyError⟩
    ∧ (gatewayFetch envEx "r1" (fun _ => .ok nullBodyResp) none reqHello).stored = [] :=
  c8_empty_artifact envEx "r1" reqHello bodyHello nullBodyResp none
    rfl rfl rfl (by decide) rfl

/-- C9: routing looks only at the URL path — any method on a non-`/render`
path gets the 200 liveness text and no forward; and any method on
`/render` is treated as a render attempt, so a bodiless `GET /render`
lands in the catch-all and yields a 500, not the liveness body. -/
theorem c9_routing_by_path_only
    (env : Env) (rid : String)
    (cont : ForwardedJob → Except String ContainerResponse)
    (r2Fail : Option String) (req : InboundRequest) (m msg : String)
    (hp : req.path ≠ "/render") :
    gatewayFetch env rid cont r2Fail req
        = ⟨⟨200, .text livenessText⟩, none, [], 0⟩
    ∧ (gatewayFetch env rid cont r2Fail ⟨m, "/render", .error msg⟩).response
        = ⟨500, .renderFailed msg rid⟩ := by
  constructor
  · simp [gatewayFetch, hp]
  · simp [gatewayFetch]

/-- Witness for C9: `POST /` gets the liveness text; a bodiless
`GET /render` gets the catch-all 500. -/
theorem c9_witness :
    gatewayFetch envEx "r1" (fun _ => .ok manifestRespEx) none ⟨"POST", "/", .ok bodyHello⟩
        = ⟨⟨200, .text livenessText⟩, none, [], 0⟩
    ∧ (gatewayFetch envEx "r1" (fun _ => .ok manifestRespEx) none
          ⟨"GET", "/render", .error "Unexpected end of JSON input"⟩).response
        = ⟨500, .renderFailed "Unexpected end of JSON input" "r1"⟩ :=
  c9_routing_by_path_only envEx "r1" (fun _ => .ok manifestRespEx) none
    ⟨"POST", "/", .ok bodyHello⟩ "GET" "Unexpected end of JSON input" (by decide)

/-- C1 counterexample: on the streaming path the gateway stores the
object with the fixed content type `video/mp4`, not the artifact's
declared content type — here the worker declares `video/webm` yet the
stored object's content type is `video/mp4`. -/
theorem c1_counterexample :
    (gatewayFetch envEx "r1" (fun _ => .ok webmResp) none reqHello).stored
        = [⟨"r1.mp4", "abcd", "video/mp4"⟩]
    ∧ webmResp.contentType = some "video/webm"
    ∧ ("video/mp4" : String) ≠ "video/webm" := by
  refine ⟨by decide, by decide, by decide⟩

/-- C1 amended: on the streaming path (status 200, Content-Type not
declaring JSON, non-null body) the gateway writes the body under
`{correlationId}.mp4` with the fixed content type `video/mp4`, and the
returned `size` equals the size the storage backend reports — the bytes
actually written — for every declared `Content-Length`. -/
theorem c1_amended_streaming_stores_actual_size
    (env : Env) (rid : String) (req : InboundRequest) (b : CallerBody)
    (resp : ContainerResponse) (bytes : String)
    (hp : req.path = "/render") (hb : req.jsonBody = .ok b)
    (hs : resp.status = 200)
    (hct : strIncludes (resp.contentType.getD "") "application/json" = false)
    (hbody : resp.body = some bytes) :
    ∀ declaredLen : Option Nat,
      (gatewayFetch env rid (fun _ => .ok { resp with contentLength := declaredLen })
          none req).stored
          = [⟨rid ++ ".mp4", bytes, "video/mp4"⟩]
      ∧ (gatewayFetch env rid (fun _ => .ok { resp with contentLength := declaredLen })
          none req).response
          = ⟨200, .renderResult rid env.r2BucketName (rid ++ ".mp4") bytes.length
                  (publicUrl (rid ++ ".mp4"))⟩ := by
  intro declaredLen
  simp [gatewayFetch, hp, hb, hs, hct, hbody, r2Put]

/-- Witness for the amended C1: a 4-byte body stored as `r1.mp4` with
reported size 4, under a declared `Content-Length` of 9999. -/
theorem c1_amended_witness :
    (gatewayFetch envEx "r1" (fun _ => .ok { webmResp with contentLength := some 9999 })
        none reqHello).stored
        = [⟨"r1" ++ ".mp4", "abcd", "video/mp4"⟩]
    ∧ (gatewayFetch envEx "r1" (fun _ => .ok { webmResp with contentLength := some 9999 })
        none reqHello).response
        = ⟨200, .renderResult "r1" envEx.r2BucketName ("r1" ++ ".mp4") "abcd".length
                (publicUrl ("r1" ++ ".mp4"))⟩ :=
  c1_amended_streaming_stores_actual_size envEx "r1" reqHello bodyHello webmResp
    "abcd" rfl rfl rfl (by decide) rfl (some 9999)

/-- C3 counterexample: on the empty-artifact failure the response payload
is the fixed `\x7b"error":"Empty response from container"\x7d` object, which
does not mention the correlation identifier. -/
theorem c3_counterexample :
    (gatewayFetch envEx "corr-1" (fun _ => .ok nullBodyResp) none reqHello).response
        = ⟨500, .emptyError⟩
    ∧ bodyMentions "corr-1"
        (gatewayFetch envEx "corr-1" (fun _ => .ok nullBodyResp) none reqHello).response.body
        = false := by
  refine ⟨by decide, by decide⟩

/-- C3 amended: on the `/render` path, every response payload the gateway
builds itself — the success RenderResult and the catch-all failure —
mentions the correlation identifier; the exceptions are the worker-fault
payload, which is the worker's body forwarded verbatim, and the fixed
empty-artifact error payload, which omits it. -/
theorem c3_amended_correlation_id_coverage
    (env : Env) (rid : String)
    (cont : ForwardedJob → Except String ContainerResponse)
    (r2Fail : Option String) (req : InboundRequest)
    (hp : req.path = "/render") :
    (∃ s, (gatewayFetch env rid cont r2Fail req).response.body = .text s)
    ∨ (gatewayFetch env rid cont r2Fail req).response.body = .emptyError
    ∨ bodyMentions rid (gatewayFetch env rid cont r2Fail req).response.body = true := by
  unfold gatewayFetch
  rw [if_pos hp]
  split
  · exact .inr (.inr (mentions_renderFailed rid _))
  · split
    · exact .inr (.inr (mentions_renderFailed rid _))
    · split
      · split
        · split
          · exact .inr (.inr (mentions_renderFailed rid _))
          · exact .inr (.inr (mentions_renderResult rid _ _ _ _))
        · split
          · exact .inr (.inl rfl)
          · split
            · exact .inr (.inr (mentions_renderFailed rid _))
            · exact .inr (.inr (mentions_renderResult rid _ _ _ _))
      · exact .inl ⟨_, rfl⟩

/-- Witness for the amended C3 at a concrete run (manifest path). -/
theorem c3_amended_witness :
    (∃ s, (gatewayFetch envEx "corr-1" (fun _ => .ok manifestRespEx) none reqHello).response.body
        = .text s)
    ∨ (gatewayFetch envEx "corr-1" (fun _ => .ok manifestRespEx) none reqHello).response.body
        = .emptyError
    ∨ bodyMentions "corr-1"
        (gatewayFetch envEx "corr-1" (fun _ => .ok manifestRespEx) none reqHello).response.body
        = true :=
  c3_amended_correlation_id_coverage envEx "corr-1" (fun _ => .ok manifestRespEx)
    none reqHello rfl

/-- C4 counterexample: even when every credential binding is unset, the
gateway still attaches an `r2Config` object (with empty fields) to the
forwarded job — the claim's "no credential is attached" state never
occurs. -/
theorem c4_counterexample :
    (gatewayFetch envEmpty "r1" (fun _ => .ok manifestRespEx) none reqHello).forwardedJob
        = some ⟨some "HelloWorld", some [("titleText", "Hi")], [], "r1", some ⟨"", "", "", "remotion-renders"⟩⟩
    ∧ (some (⟨"", "", "", "remotion-renders"⟩ : R2Config) : Option R2Config) ≠ none := by
  refine ⟨by decide, by decide⟩

/-- C4 amended: the gateway unconditionally attaches an `r2Config` object
built from its environment to every forwarded job; when the environment
lacks a credential the attached object carries an empty field, which the
worker's `getS3Client` treats as absent (returning null, so the job falls
back to the streaming path rather than erroring). -/
theorem c4_amended_credential_always_attached
    (env : Env) (rid : String)
    (cont : ForwardedJob → Except String ContainerResponse)
    (r2Fail : Option String) (req : InboundRequest) (b : CallerBody)
    (hp : req.path = "/render") (hb : req.jsonBody = .ok b) :
    (gatewayFetch env rid cont r2Fail req).forwardedJob
        = some ⟨b.compositionId, b.inputProps, b.extra, rid,
                some ⟨env.accountId, env.accessKeyId, env.secretAccessKey, env.r2BucketName⟩⟩
    ∧ ((env.accountId = "" ∨ env.accessKeyId = "" ∨ env.secretAccessKey = "") →
        getS3Client (some ⟨env.accountId, env.accessKeyId, env.secretAccessKey,
                            env.r2BucketName⟩) = none) := by
  constructor
  · unfold gatewayFetch
    rw [if_pos hp, hb]
    dsimp only
    split
    · rfl
    · split
      · split
        · split <;> rfl
        · split
          · rfl
          · split <;> rfl
      · rfl
  · intro h
    unfold getS3Client
    rcases h with h | h | h <;> simp [h]

/-- Witness for the amended C4 at the all-empty environment. -/
theorem c4_amended_witness :
    (gatewayFetch envEmpty "r1" (fun _ => .ok manifestRespEx) none reqHello).forwardedJob
        = some ⟨bodyHello.compositionId, bodyHello.inputProps, bodyHello.extra, "r1",
                some ⟨envEmpty.accountId, envEmpty.accessKeyId, envEmpty.secretAccessKey,
                      envEmpty.r2BucketName⟩⟩
    ∧ ((envEmpty.accountId = "" ∨ envEmpty.accessKeyId = "" ∨ envEmpty.secretAccessKey = "") →
        getS3Client (some ⟨envEmpty.accountId, envEmpty.accessKeyId, envEmpty.secretAccessKey,
                            envEmpty.r2BucketName⟩) = none) :=
  c4_amended_credential_always_attached envEmpty "r1" (fun _ => .ok manifestRespEx)
    none reqHello bodyHello rfl rfl

/-- C5: a parsed `/render` body with a missing or empty `compositionId`
ends as a 400 whose payload is the fixed validation message (forwarded
from the container), whatever the other fields and whatever the renderer
would have done. -/
theorem c5_missing_compositionId_400
    (env : Env) (rid : String) (render : RenderOutcome) (r2Fail : Option String)
    (req : InboundRequest) (b : CallerBody)
    (hp : req.path = "/render") (hb : req.jsonBody = .ok b)
    (hc : missingCid b.compositionId = true) :
    (systemFetch env rid render r2Fail req).response = ⟨400, .text validationMsgBody⟩ := by
  simp [systemFetch, gatewayFetch, enhance, workerHandle, validationResp,
        hp, hb, hc]

/-- Witness for C5: the empty body `\x7b\x7d` yields the fixed 400. -/
theorem c5_witness :
    (systemFetch envEx "r1" (.ok "vid") none reqNoCid).response
        = ⟨400, .text validationMsgBody⟩ :=
  c5_missing_compositionId_400 envEx "r1" (.ok "vid") none reqNoCid bodyNoCid
    rfl rfl rfl

/-- C6 counterexample: a body missing `compositionId` IS forwarded to the
render worker (the worker itself produces the 400 the gateway relays),
and a malformed body is rejected with 500, not 400. -/
theorem c6_counterexample :
    (systemFetch envEx "r1" (.ok "vid") none reqNoCid).forwardedJob ≠ none
    ∧ (systemFetch envEx "r1" (.ok "vid") none reqNoCid).response.status = 400
    ∧ (systemFetch envEx "r1" (.ok "vid") none reqBadJson).response.status = 500 := by
  refine ⟨by decide, by decide, by decide⟩

/-- C6 amended: a parseable body with a missing/empty `compositionId` is
rejected with 400, but only after being forwarded to the render worker —
the worker performs the validation and the gateway relays its 400; a
malformed (unparseable) body is rejected by the gateway itself with 500
from the catch-all, without any forward. -/
theorem c6_amended_validation_in_worker
    (env : Env) (rid : String) (render : RenderOutcome) (r2Fail : Option String)
    (req req' : InboundRequest) (b : CallerBody) (msg : String)
    (cont : ForwardedJob → Except String ContainerResponse)
    (hp : req.path = "/render") (hb : req.jsonBody = .ok b)
    (hc : missingCid b.compositionId = true)
    (hp' : req'.path = "/render") (hb' : req'.jsonBody = .error msg) :
    ((systemFetch env rid render r2Fail req).response.status = 400
      ∧ (systemFetch env rid render r2Fail req).forwardedJob.isSome = true)
    ∧ ((gatewayFetch env rid cont r2Fail req').response.status = 500
      ∧ (gatewayFetch env rid cont r2Fail req').forwardedJob = none) := by
  refine ⟨⟨?_, ?_⟩, ?_, ?_⟩
  · simp [systemFetch, gatewayFetch, enhance, workerHandle, validationResp, hp, hb, hc]
  · simp [systemFetch, gatewayFetch, enhance, workerHandle, validationResp, hp, hb, hc]
  · simp [gatewayFetch, hp', hb']
  · simp [gatewayFetch, hp', hb']

/-- Witness for the amended C6 at the concrete missing-`compositionId`
and malformed-body requests. -/
theorem c6_amended_witness :
    ((systemFetch envEx "r1" (.ok "vid") none reqNoCid).response.status = 400
      ∧ (systemFetch envEx "r1" (.ok "vid") none reqNoCid).forwardedJob.isSome = true)
    ∧ ((gatewayFetch envEx "r1" (fun _ => .ok manifestRespEx) none reqBadJson).response.status = 500
      ∧ (gatewayFetch envEx "r1" (fun _ => .ok manifestRespEx) none reqBadJson).forwardedJob = none) :=
  c6_amended_validation_in_worker envEx "r1" (.ok "vid") none reqNoCid reqBadJson
    bodyNoCid "Unexpected end of JSON input" (fun _ => .ok manifestRespEx)
    rfl rfl rfl rfl rfl

/-- Replace the bucket name inside a job's attached config, leaving every
other field unchanged. -/
def setBucket (job : ForwardedJob) (bkt : String) : ForwardedJob :=
  { job with r2Config := job.r2Config.map (fun c => { c with bucketName := bkt }) }

/-- C10: with a valid `compositionId` and a successful render, the
container takes the self-upload (manifest) path exactly when the
forwarded job carries an `r2Config` whose `accountId`, `accessKeyId` and
`secretAccessKey` are all non-empty and the `renderId` is non-empty;
`bucketName` is never consulted — the decision is invariant under
replacing it, so a config missing only `bucketName` still self-uploads. -/
theorem c10_selfupload_iff (job : ForwardedJob) (video : String)
    (hc : missingCid job.compositionId = false) :
    ((workerHandle (.ok video) job).s3Puts ≠ []
        ↔ ∃ cfg, job.r2Config = some cfg ∧ cfg.accountId ≠ "" ∧ cfg.accessKeyId ≠ ""
            ∧ cfg.secretAccessKey ≠ "" ∧ job.renderId ≠ "")
    ∧ (∀ bkt, ((workerHandle (.ok video) (setBucket job bkt)).s3Puts ≠ [])
        ↔ ((workerHandle (.ok video) job).s3Puts ≠ [])) := by
  constructor
  · cases hcfg : job.r2Config with
    | none => simp [workerHandle, getS3Client, hc, hcfg]
    | some cfg =>
      by_cases h1 : cfg.accountId = "" <;> by_cases h2 : cfg.accessKeyId = ""
        <;> by_cases h3 : cfg.secretAccessKey = "" <;> by_cases h4 : job.renderId = ""
        <;> simp [workerHandle, getS3Client, hc, hcfg, h1, h2, h3, h4]
  · intro bkt
    cases hcfg : job.r2Config with
    | none => simp [workerHandle, getS3Client, setBucket, hc, hcfg]
    | some cfg =>
      by_cases h1 : cfg.accountId = "" <;> by_cases h2 : cfg.accessKeyId = ""
        <;> by_cases h3 : cfg.secretAccessKey = "" <;> by_cases h4 : job.renderId = ""
        <;> simp [workerHandle, getS3Client, setBucket, hc, hcfg, h1, h2, h3, h4]

/-- Witness for C10 at a job whose config has every field but
`bucketName` (empty), which still selects the self-upload path. -/
theorem c10_witness :
    (((workerHandle (.ok "vid") ⟨some "HelloWorld", none, [], "r1",
        some ⟨"acct1", "AK123", "SK456", ""⟩⟩).s3Puts ≠ []
      ↔ ∃ cfg, (⟨some "HelloWorld", none, [], "r1",
            some ⟨"acct1", "AK123", "SK456", ""⟩⟩ : ForwardedJob).r2Config = some cfg
          ∧ cfg.accountId ≠ "" ∧ cfg.accessKeyId ≠ ""
          ∧ cfg.secretAccessKey ≠ ""
          ∧ (⟨some "HelloWorld", none, [], "r1",
              some ⟨"acct1", "AK123", "SK456", ""⟩⟩ : ForwardedJob).renderId ≠ "")
    ∧ (∀ bkt, ((workerHandle (.ok "vid") (setBucket ⟨some "HelloWorld", none, [], "r1",
          some ⟨"acct1", "AK123", "SK456", ""⟩⟩ bkt)).s3Puts ≠ [])
        ↔ ((workerHandle (.ok "vid") ⟨some "HelloWorld", none, [], "r1",
            some ⟨"acct1", "AK123", "SK456", ""⟩⟩).s3Puts ≠ []))) :=
  c10_selfupload_iff ⟨some "HelloWorld", none, [], "r1",
    some ⟨"acct1", "AK123", "SK456", ""⟩⟩ "vid" rfl
